import Mathlib

/-!
Thread scheduler interface of `include/threads/thread.h`.

The development has two parts.

* The declarations of the header (the status enumeration, the priority
  constants, the members of `struct thread`, the function prototypes) are
  transcribed as data, with the line of the header each one comes from.
* The header only declares the scheduler operations; their bodies live in
  `thread.c`, which is not part of the sources at hand.  Those operations are
  modelled from the design document and every such definition says so in its
  doc comment.
-/

namespace Pintos

/-! ## Part 1: declarations of the header -/

/-- States in a thread's life cycle (`enum thread_status`, lines 16-21). -/
inductive thread_status where
  | THREAD_RUNNING
  | THREAD_READY
  | THREAD_BLOCKED
  | THREAD_DYING
  deriving DecidableEq, Repr, Fintype

open thread_status

/-- The enumerators of `enum thread_status` in the order the header lists them.
None has an explicit initialiser. -/
def thread_status_enumerators : List thread_status :=
  [THREAD_RUNNING, THREAD_READY, THREAD_BLOCKED, THREAD_DYING]

/-- Value of an enumerator: C numbers enumerators without initialisers from 0,
in declaration order. -/
def thread_status.value (st : thread_status) : Nat :=
  thread_status_enumerators.indexOf st

/-- Thread identifier type (`typedef int tid_t`, line 25). -/
abbrev tid_t := Int

/-- Error value for `tid_t` (line 26). -/
def TID_ERROR : tid_t := -1

/-- Lowest priority (line 29). -/
def PRI_MIN : Int := 0

/-- Default priority (line 30). -/
def PRI_DEFAULT : Int := 31

/-- Highest priority (line 31). -/
def PRI_MAX : Int := 63

/-- Base types that occur in the header. -/
inductive cbase where
  | c_void
  | c_bool
  | c_char
  | c_int
  | c_unsigned
  | c_int64
  | c_uint64
  | c_tid
  | c_thread_func
  | c_struct (tag : String)
  | c_enum (tag : String)
  deriving DecidableEq, Repr

open cbase

/-- A C type as written in a declaration: qualifier, base type, number of
pointer stars, and the array bound if the declarator is an array. -/
structure ctype where
  isConst : Bool
  base : cbase
  stars : Nat
  arrayLen : Option Nat
  deriving DecidableEq, Repr

/-- Unqualified, non-pointer type. -/
def plain (b : cbase) : ctype := ⟨false, b, 0, none⟩

/-- Unqualified pointer type with `n` stars. -/
def ptr (b : cbase) (n : Nat) : ctype := ⟨false, b, n, none⟩

/-- Const-qualified pointee with `n` stars. -/
def constPtr (b : cbase) (n : Nat) : ctype := ⟨true, b, n, none⟩

/-- One member declaration of a struct: header line, type, name and the
preprocessor symbol that guards it, if any. -/
structure member where
  line : Nat
  ty : ctype
  name : String
  ifdef : Option String
  deriving DecidableEq, Repr

/-- The member declarations of `struct thread` (lines 123-185), in order. -/
def struct_thread : List member :=
  [ ⟨125, plain c_tid, "tid", none⟩,
    ⟨126, plain (c_enum "thread_status"), "status", none⟩,
    ⟨127, ⟨false, c_char, 0, some 16⟩, "name", none⟩,
    ⟨128, plain c_int, "priority", none⟩,
    ⟨129, plain c_int64, "time_to_wakeup", none⟩,
    ⟨131, plain c_int64, "wakeup_tick", none⟩,
    ⟨132, plain c_int, "init_priority", none⟩,
    ⟨134, ptr (c_struct "lock") 1, "wait_on_lock", none⟩,
    ⟨135, plain (c_struct "list"), "donations", none⟩,
    ⟨138, plain (c_struct "list_elem"), "elem", none⟩,
    ⟨143, plain c_int, "init_priority", none⟩,
    ⟨145, ptr (c_struct "lock") 1, "wait_on_lock", none⟩,
    ⟨146, plain (c_struct "list"), "donations", none⟩,
    ⟨147, plain (c_struct "list_elem"), "donation_elem", none⟩,
    ⟨149, ptr (c_struct "thread") 1, "parent_t", none⟩,
    ⟨150, plain (c_struct "list"), "children_list", none⟩,
    ⟨151, plain (c_struct "list_elem"), "child_elem", none⟩,
    ⟨153, plain (c_struct "semaphore"), "sema_exit", none⟩,
    ⟨154, plain (c_struct "semaphore"), "sema_wait", none⟩,
    ⟨155, plain (c_struct "semaphore"), "sema_fork", none⟩,
    ⟨156, plain c_int, "exit_status", none⟩,
    ⟨159, ptr (c_struct "file") 2, "fdt", none⟩,
    ⟨160, plain c_int, "next_fd", none⟩,
    ⟨161, ptr (c_struct "file") 1, "running_file", none⟩,
    ⟨163, plain (c_struct "list_elem"), "d_elem", none⟩,
    ⟨168, ptr c_uint64 1, "pml4", some "USERPROG"⟩,
    ⟨172, plain (c_struct "supplemental_page_table"), "spt", some "VM"⟩,
    ⟨177, plain (c_struct "intr_frame"), "tf", none⟩,
    ⟨178, plain (c_struct "intr_frame"), "ptf", none⟩,
    ⟨179, plain c_unsigned, "magic", none⟩,
    ⟨182, plain (c_struct "intr_frame"), "tf", none⟩,
    ⟨183, plain c_unsigned, "magic", none⟩ ]

/-- A build configuration: which of the two guarding symbols are defined. -/
structure config where
  USERPROG : Bool
  VM : Bool
  deriving DecidableEq, Repr

/-- Whether a member survives preprocessing under a configuration. -/
def member.active (cfg : config) (m : member) : Bool :=
  match m.ifdef with
  | none => true
  | some g => (g == "USERPROG" && cfg.USERPROG) || (g == "VM" && cfg.VM)

/-- Names of the members of `struct thread` after preprocessing, in order,
one entry per declaration. -/
def member_names (cfg : config) : List String :=
  (struct_thread.filter (member.active cfg)).map member.name

/-- How many declarations of `struct thread` carry the given name. -/
def declared_times (cfg : config) (n : String) : Nat :=
  (member_names cfg).count n

/-- One function prototype: header line, return type, name, parameter types.
Parameter names and the `UNUSED` / `NO_RETURN` annotations are not part of the
signature and are left out; the parameter lists `(void)` and `()` are both
the empty list. -/
structure prototype where
  line : Nat
  ret : ctype
  name : String
  params : List ctype
  deriving DecidableEq, Repr

/-- The function prototypes of the header (lines 194-275), in order. -/
def prototypes : List prototype :=
  [ ⟨194, plain c_void, "thread_sleep", [plain c_int64]⟩,
    ⟨195, plain c_void, "thread_wakeup", [plain c_int64]⟩,
    ⟨196, plain c_bool, "thread_compare_time",
      [constPtr (c_struct "list_elem") 1, constPtr (c_struct "list_elem") 1, ptr c_void 1]⟩,
    ⟨204, plain c_void, "thread_init", []⟩,
    ⟨205, plain c_void, "thread_start", []⟩,
    ⟨207, plain c_void, "thread_tick", []⟩,
    ⟨208, plain c_void, "thread_print_stats", []⟩,
    ⟨213, plain c_tid, "thread_create",
      [constPtr c_char 1, plain c_int, ptr c_thread_func 1, ptr c_void 1]⟩,
    ⟨215, plain c_void, "thread_block", []⟩,
    ⟨216, plain c_void, "thread_unblock", [ptr (c_struct "thread") 1]⟩,
    ⟨218, ptr (c_struct "thread") 1, "thread_current", []⟩,
    ⟨219, plain c_tid, "thread_tid", []⟩,
    ⟨220, constPtr c_char 1, "thread_name", []⟩,
    ⟨222, plain c_void, "thread_exit", []⟩,
    ⟨223, plain c_void, "thread_yield", []⟩,
    ⟨230, plain c_bool, "thread_compare_priority",
      [constPtr (c_struct "list_elem") 1, constPtr (c_struct "list_elem") 1, ptr c_void 1]⟩,
    ⟨232, plain c_void, "thread_compare", []⟩,
    ⟨239, plain c_int, "thread_get_priority", []⟩,
    ⟨240, plain c_void, "thread_set_priority", [plain c_int]⟩,
    ⟨248, plain c_void, "thread_donate", [ptr (c_struct "thread") 1]⟩,
    ⟨249, plain c_void, "thread_remove_donate", [ptr (c_struct "lock") 1]⟩,
    ⟨250, plain c_void, "thread_donate_reset", [ptr (c_struct "thread") 1]⟩,
    ⟨251, plain c_bool, "thread_compare_donate_priority",
      [constPtr (c_struct "list_elem") 1, constPtr (c_struct "list_elem") 1, ptr c_void 1]⟩,
    ⟨254, plain c_void, "thread_donate_depth", []⟩,
    ⟨260, plain c_int, "thread_get_nice", []⟩,
    ⟨261, plain c_void, "thread_set_nice", [plain c_int]⟩,
    ⟨262, plain c_int, "thread_get_recent_cpu", []⟩,
    ⟨263, plain c_int, "thread_get_load_avg", []⟩,
    ⟨265, plain c_void, "do_iret", [ptr (c_struct "intr_frame") 1]⟩,
    ⟨268, plain c_void, "thread_test_preemption", []⟩,
    ⟨269, plain c_bool, "thread_compare_priority",
      [ptr (c_struct "list_elem") 1, ptr (c_struct "list_elem") 1, ptr c_void 1]⟩,
    ⟨272, plain c_bool, "thread_compare_donate_priority",
      [constPtr (c_struct "list_elem") 1, constPtr (c_struct "list_elem") 1, ptr c_void 1]⟩,
    ⟨273, plain c_void, "donate_priority", []⟩,
    ⟨274, plain c_void, "remove_with_lock", [ptr (c_struct "lock") 1]⟩,
    ⟨275, plain c_void, "refresh_priority", []⟩ ]

/-- The signature of a prototype: return type and parameter types. -/
def prototype.signature (p : prototype) : ctype × List ctype :=
  (p.ret, p.params)

/-- The prototypes declared under a given function name. -/
def prototypes_of (n : String) : List prototype :=
  prototypes.filter (fun p => p.name == n)

/-- Names of the functions the header declares more than once. -/
def multiply_declared : List String :=
  ((prototypes.map prototype.name).filter
    (fun n => decide (1 < (prototypes.map prototype.name).count n))).dedup

/-- All prototypes of a function agree on the signature. -/
def consistent (n : String) : Bool :=
  (prototypes_of n).all (fun p => (prototypes_of n).all (fun q => p.signature == q.signature))

/-! ## Part 2: scheduler state and operations

The header declares these operations; the bodies are modelled from the design
document. -/

/-- Identity of a lock (`struct lock *` in the header). -/
abbrev lock_id := Nat

/-- The members of `struct thread` (lines 125-135) that the operations below
read or write.  A member the header declares twice is one field; the intrusive
`donations` list is held as the identities of the threads on it. -/
structure thread where
  tid : tid_t
  status : thread_status
  priority : Int
  wakeup_tick : Int
  init_priority : Int
  wait_on_lock : Option lock_id
  donations : List tid_t
  deriving DecidableEq, Repr

/-- Modelled from the spec: the single explicit scheduler-state value of the
design notes (section 9).  `thread_mlfqs` is the flag the header declares at
line 190; the thread table, the lock holders (a field of `struct lock`, whose
declaration is in `synch.h`), the current-thread reference, the Run Queue and
the Sleep Queue are globals of `thread.c`, which is missing. -/
structure sched where
  thread_mlfqs : Bool
  threads : tid_t → thread
  holder : lock_id → Option tid_t
  current : tid_t
  ready_list : List tid_t
  sleep_list : List tid_t

/-- Overwrite the control block of thread `t`. -/
def set_thread (s : sched) (t : tid_t) (v : thread) : sched :=
  { s with threads := Function.update s.threads t v }

/-- Modelled from the spec: the formula of section 4.4 (body of
`refresh_priority` is missing), `max(H.base_priority, max over H.donations of
donor.effective_priority)`, evaluated for thread `t`. -/
def donated_priority (s : sched) (t : tid_t) : Int :=
  ((s.threads t).donations.map (fun d => (s.threads d).priority)).foldr max
    (s.threads t).init_priority

/-- Modelled from the spec: the recomputation step of section 4.4 applied to
thread `t` (body of `refresh_priority` is missing): its effective priority is
set to the value of the formula; nothing else changes. -/
def refresh_thread (s : sched) (t : tid_t) : sched :=
  set_thread s t { s.threads t with priority := donated_priority s t }

/-- Modelled from the spec: `refresh_priority` (declared at line 275, body
missing) recomputes the effective priority of the current thread. -/
def refresh_priority (s : sched) : sched :=
  refresh_thread s s.current

/-- Modelled from the spec: the reference bound on the donation walk, "8 hops"
(section 4.4); the constant itself is in the missing `thread.c`. -/
def donation_depth_bound : Nat := 8

/-- Modelled from the spec: the propagation walk of section 4.4 (body of
`donate_priority` is missing).  From `cur`, follow `wait_on_lock` to the holder
of that lock, recompute the holder, and repeat from the holder, for at most
`fuel` hops; a walk that uses up the bound stops without error.  The second
component counts the hops taken. -/
def donate_walk : Nat → tid_t → sched → sched × Nat
  | 0, _, s => (s, 0)
  | fuel + 1, cur, s =>
    match (s.threads cur).wait_on_lock with
    | none => (s, 0)
    | some l =>
      match s.holder l with
      | none => (s, 0)
      | some h =>
        let r := donate_walk fuel h (refresh_thread s h)
        (r.1, r.2 + 1)

/-- Modelled from the spec: `donate_priority` (declared at line 273, body
missing) runs the propagation walk from the current thread with the reference
bound. -/
def donate_priority (s : sched) : sched :=
  (donate_walk donation_depth_bound s.current s).1

/-- Modelled from the spec: section 4.4 "On blocking acquire" (the caller is
the lock implementation of the missing `synch.c`).  The current thread `D`
blocks on `l`, held by `H`: record `D.wait_on_lock = l`, add `D` to
`H.donations`, then propagate.  Disabled entirely under MLFQS. -/
def donation_on_acquire (l : lock_id) (s : sched) : sched :=
  if s.thread_mlfqs then s
  else
    match s.holder l with
    | none => s
    | some h =>
      let s1 := set_thread s s.current { s.threads s.current with wait_on_lock := some l }
      let s2 := set_thread s1 h
        { s1.threads h with donations := (s1.threads h).donations ++ [s.current] }
      donate_priority s2

/-- Modelled from the spec: the Run Queue comparator (`thread_compare_priority`,
declared at line 230, body missing): higher effective priority goes first. -/
def thread_compare_priority (s : sched) (a b : tid_t) : Bool :=
  decide ((s.threads b).priority < (s.threads a).priority)

/-- Modelled from the spec: sorted-on-insert order with FIFO among equals
(section 4.2; the list library is missing): `x` goes in front of the first
element it is strictly less than. -/
def list_insert_ordered (less : tid_t → tid_t → Bool) (x : tid_t) : List tid_t → List tid_t
  | [] => [x]
  | y :: ys => if less x y then x :: y :: ys else y :: list_insert_ordered less x ys

/-- Modelled from the spec: `thread_unblock` (declared at line 216, body
missing): the thread becomes READY and is inserted into the Run Queue. -/
def thread_unblock (t : tid_t) (s : sched) : sched :=
  let s1 := set_thread s t { s.threads t with status := THREAD_READY }
  { s1 with ready_list := list_insert_ordered (thread_compare_priority s1) t s1.ready_list }

/-- Modelled from the spec: the scan of `wakeup` (section 4.3; body of
`thread_wakeup` is missing) over the Sleep Queue from the front: a thread whose
`wakeup_tick` is at most `tick` is removed and unblocked; the scan stops at the
first thread whose deadline is still in the future. -/
def wakeup_scan (tick : Int) : List tid_t → sched → sched
  | [], s => { s with sleep_list := [] }
  | t :: rest, s =>
    if (s.threads t).wakeup_tick ≤ tick then wakeup_scan tick rest (thread_unblock t s)
    else { s with sleep_list := t :: rest }

/-- Modelled from the spec: `thread_wakeup` (declared at line 195, body
missing).  It runs in interrupt context, so the preemption rule takes effect
at the next safe point, after it returns. -/
def thread_wakeup (tick : Int) (s : sched) : sched :=
  wakeup_scan tick s.sleep_list s

/-- Unblock the threads of `q` one after the other, front first. -/
def unblock_in_order (q : List tid_t) (s : sched) : sched :=
  q.foldl (fun acc t => thread_unblock t acc) s

/-- Threads of a queue whose deadline has been reached at `tick`. -/
def due (s : sched) (tick : Int) (q : List tid_t) : List tid_t :=
  q.filter (fun t => decide ((s.threads t).wakeup_tick ≤ tick))

/-- Threads of a queue whose deadline is still in the future at `tick`. -/
def not_due (s : sched) (tick : Int) (q : List tid_t) : List tid_t :=
  q.filter (fun t => decide (tick < (s.threads t).wakeup_tick))

/-- The Sleep Queue is ordered ascending by `wakeup_tick`. -/
def sleep_sorted (s : sched) : Prop :=
  s.sleep_list.Pairwise (fun a b => (s.threads a).wakeup_tick ≤ (s.threads b).wakeup_tick)

/-- Modelled from the spec: out-of-range priorities are clamped to the nearest
valid bound (section 7 (c)). -/
def clamp_priority (p : Int) : Int :=
  max PRI_MIN (min PRI_MAX p)

/-- Modelled from the spec: `thread_yield` (declared at line 223, body
missing): RUNNING to READY, back on the Run Queue, and the front of the Run
Queue is dispatched (sections 4.1, 4.2). -/
def thread_yield (s : sched) : sched :=
  let s1 := set_thread s s.current { s.threads s.current with status := THREAD_READY }
  match list_insert_ordered (thread_compare_priority s1) s.current s1.ready_list with
  | [] => s
  | next :: rest =>
    { set_thread s1 next { s1.threads next with status := THREAD_RUNNING } with
      current := next, ready_list := rest }

/-- Modelled from the spec: the preemption rule of section 4.2
(`thread_test_preemption`, declared at line 268, body missing): the running
thread yields when the front of the Run Queue has strictly greater effective
priority. -/
def thread_test_preemption (s : sched) : sched :=
  match s.ready_list with
  | [] => s
  | t :: _ =>
    if (s.threads s.current).priority < (s.threads t).priority then thread_yield s else s

/-- Modelled from the spec: `thread_set_priority` (declared at line 240, body
missing).  Under MLFQS it has no effect.  Otherwise the clamped argument
becomes the base priority of the current thread, the effective priority is
recomputed and the preemption rule is applied. -/
def thread_set_priority (new_priority : Int) (s : sched) : sched :=
  if s.thread_mlfqs then s
  else
    thread_test_preemption
      (refresh_priority
        (set_thread s s.current
          { s.threads s.current with init_priority := clamp_priority new_priority }))

/-- Thread `a` is blocked on a lock held by thread `b`. -/
def blocked_on (s : sched) (a b : tid_t) : Prop :=
  ∃ l, (s.threads a).wait_on_lock = some l ∧ s.holder l = some b

/-- The field names the data model (section 3) says a TCB owns, written with
the member names of the header: id is `tid`, base priority is `init_priority`,
effective priority is `priority`, the queue-membership slot is `elem`. -/
def spec_tcb_fields : List String :=
  ["tid", "status", "name", "init_priority", "priority", "nice", "recent_cpu",
   "wakeup_tick", "wait_on_lock", "donations", "elem"]

/-- The member names the design notes (section 9) list as declared twice. -/
def spec_duplicated : List String :=
  ["init_priority", "wait_on_lock", "donations", "tf", "magic"]

/-! ## Concrete scheduler states -/

/-- A READY thread with the given identifier and base priority, no donors,
not waiting on any lock. -/
def fresh_thread (t : tid_t) (p : Int) : thread :=
  ⟨t, THREAD_READY, p, 0, p, none, []⟩

/-- Three threads: 1 (priority 30), 2 (priority 20), every other 10.  Lock 1 is
held by thread 2, lock 2 by thread 3; thread 2 is running. -/
def chain_start : sched :=
  { thread_mlfqs := false
    threads := fun t => if t = 1 then fresh_thread 1 30 else if t = 2 then fresh_thread 2 20
      else fresh_thread t 10
    holder := fun l => if l = 1 then some 2 else if l = 2 then some 3 else none
    current := 2
    ready_list := []
    sleep_list := [] }

/-- Thread 2 has blocked on lock 2 (held by thread 3); thread 1 runs next. -/
def chain_mid : sched :=
  { donation_on_acquire 2 chain_start with current := 1 }

/-- Two threads in priority mode: 1 (priority 10) is running, 2 (priority 5)
holds lock 7. -/
def pair_start : sched :=
  { thread_mlfqs := false
    threads := fun t => if t = 1 then fresh_thread 1 10 else fresh_thread t 5
    holder := fun l => if l = 7 then some 2 else none
    current := 1
    ready_list := []
    sleep_list := [] }

/-- MLFQS mode, thread 1 running at priority 31, thread 2 ready at 40. -/
def mlfqs_state : sched :=
  { thread_mlfqs := true
    threads := fun t => fresh_thread t (if t = 2 then 40 else 31)
    holder := fun _ => none
    current := 1
    ready_list := [2]
    sleep_list := [] }

/-- Sleep Queue 1, 2, 3 with deadlines 5, 5, 9, all BLOCKED; thread 0 runs. -/
def sleepers : sched :=
  { thread_mlfqs := false
    threads := fun t =>
      ⟨t, if t = 0 then THREAD_RUNNING else THREAD_BLOCKED, 31, if t = 3 then 9 else 5, 31,
        none, []⟩
    holder := fun _ => none
    current := 0
    ready_list := []
    sleep_list := [1, 2, 3] }

/-- C6: the priority constants are PRI_MIN = 0, PRI_MAX = 63, PRI_DEFAULT = 31;
they are ordered PRI_MIN <= PRI_DEFAULT <= PRI_MAX and the range
[PRI_MIN, PRI_MAX] holds exactly 64 values. -/
theorem priority_constants :
    PRI_MIN = 0 ∧ PRI_MAX = 63 ∧ PRI_DEFAULT = 31 ∧
    PRI_MIN ≤ PRI_DEFAULT ∧ PRI_DEFAULT ≤ PRI_MAX ∧
    (Finset.Icc PRI_MIN PRI_MAX).card = 64 := by
  refine ⟨rfl, rfl, rfl, by decide, by decide, ?_⟩
  simp [PRI_MIN, PRI_MAX]

/-- C8: `enum thread_status` has exactly the four enumerators THREAD_RUNNING,
THREAD_READY, THREAD_BLOCKED, THREAD_DYING, with values 0, 1, 2, 3, pairwise
distinct, and no others. -/
theorem thread_status_four_states :
    thread_status_enumerators =
      [THREAD_RUNNING, THREAD_READY, THREAD_BLOCKED, THREAD_DYING] ∧
    thread_status_enumerators.map thread_status.value = [0, 1, 2, 3] ∧
    thread_status_enumerators.Nodup ∧
    (∀ st : thread_status, st = THREAD_RUNNING ∨ st = THREAD_READY ∨
      st = THREAD_BLOCKED ∨ st = THREAD_DYING) ∧
    Fintype.card thread_status = 4 := by
  refine ⟨rfl, by decide, by decide, ?_, by decide⟩
  intro st
  cases st <;> simp

/-- A name that is not a member name is declared zero times, and is none of
the names listed as duplicated. -/
theorem declared_times_of_not_mem (cfg : config) (n : String)
    (h : n ∉ member_names cfg) :
    declared_times cfg n = 0 ∧ n ∉ spec_duplicated := by
  refine ⟨List.count_eq_zero.2 h, ?_⟩
  intro hd
  apply h
  have hsub : ∀ m ∈ spec_duplicated, m ∈ member_names cfg := by
    rcases cfg with ⟨_ | _, _ | _⟩ <;> decide
  exact hsub n hd

/-- A member name is declared twice if it is one of the five listed names and
once otherwise. -/
theorem declared_times_of_mem (cfg : config) (n : String)
    (h : n ∈ member_names cfg) :
    declared_times cfg n = if n ∈ spec_duplicated then 2 else 1 := by
  have hall : ∀ m ∈ member_names cfg,
      declared_times cfg m = if m ∈ spec_duplicated then 2 else 1 := by
    rcases cfg with ⟨_ | _, _ | _⟩ <;> decide
  exact hall n h

/-- C9: in `struct thread`, under every configuration, a name is declared
twice exactly when it is one of init_priority, wait_on_lock, donations, tf,
magic; every other member name is declared once (and a name that is no member
zero times). -/
theorem struct_thread_duplicated_members (cfg : config) (n : String) :
    declared_times cfg n =
      if n ∈ spec_duplicated then 2 else if n ∈ member_names cfg then 1 else 0 := by
  by_cases h : n ∈ member_names cfg
  · rw [declared_times_of_mem cfg n h]
    by_cases hd : n ∈ spec_duplicated <;> simp [hd, h]
  · obtain ⟨h0, hd⟩ := declared_times_of_not_mem cfg n h
    simp [h0, hd, h]

/-- C7 (as stated, refuted): with both guarding symbols defined, not every
field of the data model is a member of `struct thread`: `nice` and
`recent_cpu` are not declared. -/
theorem tcb_fields_not_all_declared :
    ¬ (spec_tcb_fields.all (fun n => decide (n ∈ member_names ⟨true, true⟩)) = true) ∧
    declared_times ⟨true, true⟩ "nice" = 0 ∧
    declared_times ⟨true, true⟩ "recent_cpu" = 0 := by
  decide

/-- C7 (amended): under every configuration `struct thread` has a member for
tid, status, name, init_priority, priority, wakeup_tick, wait_on_lock,
donations and elem, and has no member named nice or recent_cpu; the header
does declare the accessors `int thread_get_nice (void)` (line 260),
`void thread_set_nice (int)` (line 261) and `int thread_get_recent_cpu (void)`
(line 262), once each. -/
theorem tcb_fields_declared (cfg : config) :
    (["tid", "status", "name", "init_priority", "priority", "wakeup_tick",
      "wait_on_lock", "donations", "elem"].all
        (fun n => decide (n ∈ member_names cfg)) = true) ∧
    declared_times cfg "nice" = 0 ∧ declared_times cfg "recent_cpu" = 0 ∧
    prototypes_of "thread_get_nice" = [⟨260, plain c_int, "thread_get_nice", []⟩] ∧
    prototypes_of "thread_set_nice" = [⟨261, plain c_void, "thread_set_nice", [plain c_int]⟩] ∧
    prototypes_of "thread_get_recent_cpu" =
      [⟨262, plain c_int, "thread_get_recent_cpu", []⟩] := by
  rcases cfg with ⟨_ | _, _ | _⟩ <;> decide

/-- C10 (evaluated on the header): the functions with more than one prototype
are thread_compare_priority (lines 230, 269) and thread_compare_donate_priority
(lines 251, 272); the two prototypes of thread_compare_donate_priority have the
same signature, the two of thread_compare_priority do not: line 230 takes
`const struct list_elem *` twice, line 269 takes `struct list_elem *`. -/
theorem duplicate_prototypes_signatures :
    multiply_declared = ["thread_compare_priority", "thread_compare_donate_priority"] ∧
    (prototypes_of "thread_compare_priority").map prototype.line = [230, 269] ∧
    (prototypes_of "thread_compare_donate_priority").map prototype.line = [251, 272] ∧
    consistent "thread_compare_donate_priority" = true ∧
    consistent "thread_compare_priority" = false ∧
    (prototypes_of "thread_compare_priority").map prototype.params =
      [[constPtr (c_struct "list_elem") 1, constPtr (c_struct "list_elem") 1, ptr c_void 1],
       [ptr (c_struct "list_elem") 1, ptr (c_struct "list_elem") 1, ptr c_void 1]] := by
  decide

/-! ## Theorems: donation -/

theorem set_thread_same (s : sched) (t : tid_t) (v : thread) :
    (set_thread s t v).threads t = v := by
  simp [set_thread]

theorem set_thread_other (s : sched) (t x : tid_t) (v : thread) (h : x ≠ t) :
    (set_thread s t v).threads x = s.threads x := by
  simp [set_thread, Function.update_noteq h]

theorem foldr_max_ge_init (l : List Int) (b : Int) : b ≤ l.foldr max b := by
  induction l with
  | nil => simp
  | cons a l ih => exact le_trans ih (le_max_right _ _)

theorem foldr_max_ge_mem (l : List Int) (b x : Int) (h : x ∈ l) : x ≤ l.foldr max b := by
  induction l with
  | nil => simp at h
  | cons a l ih =>
    rcases List.mem_cons.1 h with rfl | h
    · exact le_max_left _ _
    · exact le_trans (ih h) (le_max_right _ _)

theorem foldr_max_attained (l : List Int) (b : Int) :
    l.foldr max b = b ∨ l.foldr max b ∈ l := by
  induction l with
  | nil => simp
  | cons a l ih =>
    rcases max_choice a (l.foldr max b) with h | h
    · right
      simp only [List.foldr_cons, h]
      exact List.mem_cons_self _ _
    · simp only [List.foldr_cons, h]
      rcases ih with ih | ih
      · exact Or.inl ih
      · exact Or.inr (List.mem_cons_of_mem _ ih)

theorem refresh_thread_same (s : sched) (t : tid_t) :
    (refresh_thread s t).threads t = { s.threads t with priority := donated_priority s t } := by
  simp [refresh_thread, set_thread_same]

theorem refresh_thread_other (s : sched) (t x : tid_t) (h : x ≠ t) :
    (refresh_thread s t).threads x = s.threads x := by
  simp [refresh_thread, set_thread_other _ _ _ _ h]

theorem donated_priority_ge_init (s : sched) (t : tid_t) :
    (s.threads t).init_priority ≤ donated_priority s t :=
  foldr_max_ge_init _ _

theorem donated_priority_ge_donor (s : sched) (t d : tid_t)
    (h : d ∈ (s.threads t).donations) :
    (s.threads d).priority ≤ donated_priority s t :=
  foldr_max_ge_mem _ _ _ (List.mem_map.2 ⟨d, h, rfl⟩)

theorem donated_priority_attained (s : sched) (t : tid_t) :
    donated_priority s t = (s.threads t).init_priority ∨
    ∃ d ∈ (s.threads t).donations, donated_priority s t = (s.threads d).priority := by
  rcases foldr_max_attained ((s.threads t).donations.map (fun d => (s.threads d).priority))
    (s.threads t).init_priority with h | h
  · exact Or.inl h
  · obtain ⟨d, hd, he⟩ := List.mem_map.1 h
    exact Or.inr ⟨d, hd, he.symm⟩

/-- C1: after `refresh_priority` runs with H as the current thread, H's base
priority and donations are as before, every other thread is untouched, and H's
effective priority is the maximum of its base priority and the effective
priorities of the threads in H.donations: it is at least each of them and equal
to one of them.  With an empty donations list it equals init_priority. -/
theorem refresh_priority_is_max (s : sched) :
    ((refresh_priority s).threads s.current).init_priority =
      (s.threads s.current).init_priority ∧
    ((refresh_priority s).threads s.current).donations = (s.threads s.current).donations ∧
    (∀ t, t ≠ s.current → (refresh_priority s).threads t = s.threads t) ∧
    ((refresh_priority s).threads s.current).init_priority ≤
      ((refresh_priority s).threads s.current).priority ∧
    (∀ d ∈ ((refresh_priority s).threads s.current).donations,
      ((refresh_priority s).threads d).priority ≤
        ((refresh_priority s).threads s.current).priority) ∧
    (((refresh_priority s).threads s.current).priority =
        ((refresh_priority s).threads s.current).init_priority ∨
      ∃ d ∈ ((refresh_priority s).threads s.current).donations,
        ((refresh_priority s).threads s.current).priority =
          ((refresh_priority s).threads d).priority) ∧
    ((s.threads s.current).donations = [] →
      ((refresh_priority s).threads s.current).priority =
        (s.threads s.current).init_priority) := by
  have hsame := refresh_thread_same s s.current
  have hother := refresh_thread_other s s.current
  unfold refresh_priority
  rw [hsame]
  refine ⟨rfl, rfl, fun t ht => hother t ht, donated_priority_ge_init s s.current, ?_, ?_, ?_⟩
  · intro d hd
    by_cases hds : d = s.current
    · subst hds
      rw [hsame]
    · rw [hother d hds]
      exact donated_priority_ge_donor s s.current d hd
  · rcases donated_priority_attained s s.current with h | ⟨d, hd, he⟩
    · exact Or.inl h
    · right
      by_cases hds : d = s.current
      · exact ⟨s.current, hds ▸ hd, by rw [hsame]⟩
      · exact ⟨d, hd, by rw [hother d hds]; exact he⟩
  · intro hnil
    simp [donated_priority, hnil]

/-- Witness for C1: in `chain_mid` thread 3 has the single donor 2 (priority
20) over base priority 10, and after `refresh_priority` run by thread 3 its
effective priority is at least the donor's. -/
theorem refresh_priority_is_max_witness :
    (2 : tid_t) ∈ ((refresh_priority { chain_mid with current := 3 }).threads 3).donations ∧
    ((refresh_priority { chain_mid with current := 3 }).threads 2).priority ≤
      ((refresh_priority { chain_mid with current := 3 }).threads 3).priority :=
  ⟨by decide, (refresh_priority_is_max { chain_mid with current := 3 }).2.2.2.2.1 2 (by decide)⟩

/-- One step of the walk from a thread blocked on a lock held by `h`. -/
theorem donate_walk_step (s : sched) (n : Nat) (cur h : tid_t) (hb : blocked_on s cur h) :
    donate_walk (n + 1) cur s =
      ((donate_walk n h (refresh_thread s h)).1, (donate_walk n h (refresh_thread s h)).2 + 1) := by
  obtain ⟨l, hw, hh⟩ := hb
  simp [donate_walk, hw, hh]

/-- The walk ends either at once or after a first hop to the holder. -/
theorem donate_walk_cases (s : sched) (n : Nat) (cur : tid_t) :
    donate_walk (n + 1) cur s = (s, 0) ∨ ∃ h, blocked_on s cur h := by
  cases hw : (s.threads cur).wait_on_lock with
  | none => left; simp [donate_walk, hw]
  | some l =>
    cases hh : s.holder l with
    | none => left; simp [donate_walk, hw, hh]
    | some h => exact Or.inr ⟨h, l, hw, hh⟩

theorem donate_walk_holder (n : Nat) : ∀ (s : sched) (cur : tid_t),
    (donate_walk n cur s).1.holder = s.holder := by
  induction n with
  | zero => intro s cur; rfl
  | succ n ih =>
    intro s cur
    rcases donate_walk_cases s n cur with h0 | ⟨h, hb⟩
    · rw [h0]
    · rw [donate_walk_step s n cur h hb]
      show (donate_walk n h (refresh_thread s h)).1.holder = _
      rw [ih]
      rfl

/-! ### Threads whose priority no recomputation moves -/

/-- In priority mode the setter does act: the running thread of `pair_start`
gets the requested base and effective priority, and an out-of-range request is
clamped to PRI_MAX. -/
theorem thread_set_priority_priority_mode :
    pair_start.thread_mlfqs = false ∧
    ((thread_set_priority 50 pair_start).threads 1).priority = 50 ∧
    ((thread_set_priority 50 pair_start).threads 1).init_priority = 50 ∧
    ((thread_set_priority 100 pair_start).threads 1).init_priority = 63 := by
  decide

/-- C4: when thread_mlfqs is true, `thread_set_priority p` leaves the scheduler
state unchanged for every state and every argument: the thread table (so the
current thread's priority and init_priority, and every other thread), the
current-thread reference and both queues are as before. -/
theorem thread_set_priority_mlfqs_noop (s : sched) (p : Int) (h : s.thread_mlfqs = true) :
    thread_set_priority p s = s ∧
    (∀ t, (thread_set_priority p s).threads t = s.threads t) ∧
    (thread_set_priority p s).ready_list = s.ready_list ∧
    (thread_set_priority p s).current = s.current := by
  have he : thread_set_priority p s = s := by
    unfold thread_set_priority
    rw [if_pos h]
  rw [he]
  exact ⟨rfl, fun _ => rfl, rfl, rfl⟩

/-- Witness for C4: in `mlfqs_state` the running thread asks for priority 50,
above the ready thread's 40; nothing changes. -/
theorem thread_set_priority_mlfqs_noop_witness :
    mlfqs_state.thread_mlfqs = true ∧ thread_set_priority 50 mlfqs_state = mlfqs_state :=
  ⟨rfl, (thread_set_priority_mlfqs_noop mlfqs_state 50 rfl).1⟩

/-! ## Theorems: alarm clock -/

theorem thread_unblock_same (t : tid_t) (s : sched) :
    (thread_unblock t s).threads t = { s.threads t with status := THREAD_READY } := by
  simp [thread_unblock, set_thread]

theorem thread_unblock_other (t x : tid_t) (s : sched) (h : x ≠ t) :
    (thread_unblock t s).threads x = s.threads x := by
  simp [thread_unblock, set_thread, Function.update_noteq h]

theorem thread_unblock_wakeup_tick (t x : tid_t) (s : sched) :
    ((thread_unblock t s).threads x).wakeup_tick = (s.threads x).wakeup_tick := by
  by_cases h : x = t
  · subst h
    rw [thread_unblock_same]
  · rw [thread_unblock_other _ _ _ h]

theorem due_congr (s s1 : sched) (tick : Int) (q : List tid_t)
    (h : ∀ x, (s1.threads x).wakeup_tick = (s.threads x).wakeup_tick) :
    due s1 tick q = due s tick q ∧ not_due s1 tick q = not_due s tick q := by
  simp [due, not_due, h]

theorem list_insert_ordered_perm (less : tid_t → tid_t → Bool) (x : tid_t) (l : List tid_t) :
    (list_insert_ordered less x l).Perm (x :: l) := by
  induction l with
  | nil => simp [list_insert_ordered]
  | cons y ys ih =>
    unfold list_insert_ordered
    by_cases h : less x y = true
    · simp [h]
    · simp only [h, if_false]
      exact (List.Perm.cons y ih).trans (List.Perm.swap x y ys)

theorem unblock_in_order_cons (t : tid_t) (q : List tid_t) (s : sched) :
    unblock_in_order (t :: q) s = unblock_in_order q (thread_unblock t s) := rfl

theorem unblock_in_order_sleep_list (q : List tid_t) : ∀ s : sched,
    (unblock_in_order q s).sleep_list = s.sleep_list := by
  induction q with
  | nil => intro s; rfl
  | cons t q ih => intro s; rw [unblock_in_order_cons, ih]; rfl

theorem unblock_in_order_threads (q : List tid_t) : ∀ (s : sched) (x : tid_t),
    (unblock_in_order q s).threads x =
      if x ∈ q then { s.threads x with status := THREAD_READY } else s.threads x := by
  induction q with
  | nil => intro s x; simp [unblock_in_order]
  | cons t q ih =>
    intro s x
    rw [unblock_in_order_cons, ih]
    by_cases hxt : x = t
    · subst hxt
      rw [thread_unblock_same]
      by_cases hq : x ∈ q <;> simp [hq]
    · rw [thread_unblock_other _ _ _ hxt]
      simp [hxt]

theorem unblock_in_order_ready (q : List tid_t) : ∀ s : sched,
    (unblock_in_order q s).ready_list.Perm (s.ready_list ++ q) := by
  induction q with
  | nil => intro s; simp [unblock_in_order]
  | cons t q ih =>
    intro s
    rw [unblock_in_order_cons]
    refine (ih (thread_unblock t s)).trans ?_
    have h1 : (thread_unblock t s).ready_list.Perm (t :: s.ready_list) :=
      list_insert_ordered_perm _ _ _
    exact (h1.append_right q).trans List.perm_middle.symm

/-- On a queue ordered by deadline, the scan wakes the due threads in queue
order and keeps the others. -/
theorem wakeup_scan_eq (tick : Int) (q : List tid_t) : ∀ s : sched,
    q.Pairwise (fun a b => (s.threads a).wakeup_tick ≤ (s.threads b).wakeup_tick) →
    wakeup_scan tick q s =
      unblock_in_order (due s tick q) { s with sleep_list := not_due s tick q } := by
  induction q with
  | nil => intro s _; rfl
  | cons t rest ih =>
    intro s hs
    obtain ⟨ht, hrest⟩ := List.pairwise_cons.1 hs
    by_cases hdue : (s.threads t).wakeup_tick ≤ tick
    · have hs1 : rest.Pairwise (fun a b => ((thread_unblock t s).threads a).wakeup_tick ≤
          ((thread_unblock t s).threads b).wakeup_tick) := by
        simpa only [thread_unblock_wakeup_tick] using hrest
      obtain ⟨hd, hn⟩ := due_congr s (thread_unblock t s) tick rest
        (fun x => thread_unblock_wakeup_tick t x s)
      have e1 : wakeup_scan tick (t :: rest) s = wakeup_scan tick rest (thread_unblock t s) := by
        simp [wakeup_scan, hdue]
      have e2 : due s tick (t :: rest) = t :: due s tick rest := by
        simp [due, hdue]
      have e3 : not_due s tick (t :: rest) = not_due s tick rest := by
        simp [not_due, not_lt.2 hdue]
      rw [e1, ih _ hs1, hd, hn, e2, e3, unblock_in_order_cons]
      rfl
    · have hlt : tick < (s.threads t).wakeup_tick := not_le.1 hdue
      have hall : ∀ x ∈ rest, tick < (s.threads x).wakeup_tick :=
        fun x hx => lt_of_lt_of_le hlt (ht x hx)
      have e1 : wakeup_scan tick (t :: rest) s = { s with sleep_list := t :: rest } := by
        simp [wakeup_scan, hdue]
      have e2 : due s tick (t :: rest) = [] := by
        simp only [due, List.filter_eq_nil_iff]
        intro x hx
        rcases List.mem_cons.1 hx with rfl | hx
        · simpa using hlt
        · simpa using hall x hx
      have e3 : not_due s tick (t :: rest) = t :: rest := by
        simp only [not_due, List.filter_eq_self]
        intro x hx
        rcases List.mem_cons.1 hx with rfl | hx
        · simpa using hlt
        · simpa using hall x hx
      rw [e1, e2, e3]
      rfl

/-- C3: on a Sleep Queue ordered ascending by wakeup_tick whose threads are
BLOCKED, `thread_wakeup tick` unblocks, one after the other in queue order,
exactly the threads with wakeup_tick <= tick: each of them goes from BLOCKED to
READY, joins the Run Queue and leaves the Sleep Queue, and no other control
block changes.  The Sleep Queue that is left holds exactly the threads with
wakeup_tick > tick, in their original order, unchanged and still BLOCKED. -/
theorem thread_wakeup_splits_queue (s : sched) (tick : Int) (hsorted : sleep_sorted s)
    (hblocked : ∀ t ∈ s.sleep_list, (s.threads t).status = THREAD_BLOCKED) :
    (thread_wakeup tick s).sleep_list = not_due s tick s.sleep_list ∧
    thread_wakeup tick s =
      unblock_in_order (due s tick s.sleep_list)
        { s with sleep_list := not_due s tick s.sleep_list } ∧
    (∀ t, (thread_wakeup tick s).threads t =
      if t ∈ due s tick s.sleep_list then { s.threads t with status := THREAD_READY }
      else s.threads t) ∧
    (thread_wakeup tick s).ready_list.Perm (s.ready_list ++ due s tick s.sleep_list) ∧
    (∀ t ∈ due s tick s.sleep_list,
      (s.threads t).status = THREAD_BLOCKED ∧
      ((thread_wakeup tick s).threads t).status = THREAD_READY ∧
      t ∈ (thread_wakeup tick s).ready_list ∧ t ∉ (thread_wakeup tick s).sleep_list) ∧
    (∀ t ∈ not_due s tick s.sleep_list,
      (thread_wakeup tick s).threads t = s.threads t ∧
      ((thread_wakeup tick s).threads t).status = THREAD_BLOCKED) := by
  have heq : thread_wakeup tick s =
      unblock_in_order (due s tick s.sleep_list)
        { s with sleep_list := not_due s tick s.sleep_list } :=
    wakeup_scan_eq tick s.sleep_list s hsorted
  have hsl : (thread_wakeup tick s).sleep_list = not_due s tick s.sleep_list := by
    rw [heq, unblock_in_order_sleep_list]
  have hth : ∀ t, (thread_wakeup tick s).threads t =
      if t ∈ due s tick s.sleep_list then { s.threads t with status := THREAD_READY }
      else s.threads t := by
    intro t
    rw [heq, unblock_in_order_threads]
  have hrl : (thread_wakeup tick s).ready_list.Perm (s.ready_list ++ due s tick s.sleep_list) := by
    rw [heq]
    exact unblock_in_order_ready _ _
  refine ⟨hsl, heq, hth, hrl, ?_, ?_⟩
  · intro t ht
    have hmem : t ∈ s.sleep_list ∧ (s.threads t).wakeup_tick ≤ tick := by
      simpa [due] using ht
    refine ⟨hblocked t hmem.1, ?_, ?_, ?_⟩
    · rw [hth t, if_pos ht]
    · exact hrl.symm.subset (List.mem_append_right _ ht)
    · rw [hsl]
      intro hn
      have : t ∈ s.sleep_list ∧ tick < (s.threads t).wakeup_tick := by
        simpa [not_due] using hn
      exact absurd hmem.2 (not_le.2 this.2)
  · intro t ht
    have hmem : t ∈ s.sleep_list ∧ tick < (s.threads t).wakeup_tick := by
      simpa [not_due] using ht
    have hnd : t ∉ due s tick s.sleep_list := by
      intro hd
      have : t ∈ s.sleep_list ∧ (s.threads t).wakeup_tick ≤ tick := by
        simpa [due] using hd
      exact absurd this.2 (not_le.2 hmem.2)
    have he : (thread_wakeup tick s).threads t = s.threads t := by
      rw [hth t, if_neg hnd]
    exact ⟨he, by rw [he]; exact hblocked t hmem.1⟩

theorem sleepers_sorted : sleep_sorted sleepers := by
  unfold sleep_sorted
  decide

theorem sleepers_blocked :
    ∀ t ∈ sleepers.sleep_list, (sleepers.threads t).status = THREAD_BLOCKED := by
  decide

/-- Witness for C3: the queue 1, 2, 3 with deadlines 5, 5, 9 at tick 5: thread 3
stays, threads 1 and 2 are made READY in that order. -/
theorem thread_wakeup_splits_queue_witness :
    sleep_sorted sleepers ∧
    (thread_wakeup 5 sleepers).sleep_list = [3] ∧
    (thread_wakeup 5 sleepers).ready_list.Perm ([] ++ [1, 2]) :=
  ⟨sleepers_sorted,
    (thread_wakeup_splits_queue sleepers 5 sleepers_sorted sleepers_blocked).1,
    (thread_wakeup_splits_queue sleepers 5 sleepers_sorted sleepers_blocked).2.2.2.1⟩

end Pintos
